import Mathlib

/-!
Shallow embedding of the LLM Request Governance Engine of the
GreedyAnalytics repository (backend under `analytics_llm/backend`):
the cost model and token budget limiter (`core/cost_controller.py`),
the admission rate limiter (`core/rate_limit.py`), the router
(`llm/router.py`), the provider adapters (`llm/providers/openai.py`,
`llm/providers/gemma.py`) and the query orchestrator
(`agents/orchestrator.py`), together with theorems settling the
specified properties.

Modelling conventions: Python floats are modelled as exact rationals;
Python dictionaries used as response envelopes are modelled as
structures whose fields are `Option`-valued (a `none` field models an
absent key); raised exceptions are modelled with `Except`; the mutable
per-process state (token windows, usage caches, rate counters) is
threaded explicitly; upstream network calls are modelled by passing
the sequence of upstream outcomes as an explicit argument.
-/

namespace GreedyAnalytics

/-! ## Configuration defaults (`backend/core/config.py`, env unset) -/

def MAX_REQUESTS_PER_MINUTE : Nat := 100

def MAX_TOKENS_PER_MIN : Nat := 50000

def LLM_MAX_RETRIES : Nat := 3

def OPENAI_MAX_TOKENS : Nat := 2000

def OPENAI_MODEL : String := "gpt-4"

def GEMMA_MODEL : String := "gemma-2-9b-it"

/-! ## Cost model (`backend/core/cost_controller.py`) -/

/-- Per-1K-token prices of `TOKEN_COSTS`: (model name, input price,
output price). -/
def TOKEN_COSTS : List (String × ℚ × ℚ) :=
  [("gpt-4", 3/100, 6/100),
   ("gpt-4-turbo", 1/100, 3/100),
   ("gpt-3.5-turbo", 5/10000, 15/10000),
   ("gemma", 1/10000, 2/10000),
   ("gemini-pro", 25/100000, 5/10000)]

/-- Dictionary lookup `TOKEN_COSTS[model]`. -/
def lookup_costs (model : String) : Option (ℚ × ℚ) :=
  (TOKEN_COSTS.find? (fun p => p.1 == model)).map (fun p => p.2)

/-- Rounding to six decimal places, modelling `round(x, 6)`. -/
def round6 (q : ℚ) : ℚ := ((round (q * 1000000) : ℤ) : ℚ) / 1000000

/-- `estimate_cost(task, model, token_count)`.  The task argument is
unused by the source body; the source catches exceptions and returns
`0.01`, but no operation in the body can fail. -/
def estimate_cost (_task : String) (model : String) (token_count : ℚ) : ℚ :=
  match lookup_costs model with
  | none => 1/100
  | some cost_config =>
    let input_tokens := token_count * (6/10)
    let output_tokens := token_count * (4/10)
    round6 (input_tokens / 1000 * cost_config.1 + output_tokens / 1000 * cost_config.2)

/-- The `quality_tiers` dictionary of `select_optimal_model`, with the
`.get(required_quality, quality_tiers["medium"])` default. -/
def quality_tiers (required_quality : String) : List String :=
  if required_quality = "low" then ["gemma", "gpt-3.5-turbo"]
  else if required_quality = "high" then ["gpt-4", "gpt-4-turbo"]
  else ["gemini-pro", "gpt-3.5-turbo", "gpt-4-turbo"]

/-- The candidate loop of `select_optimal_model`: first model whose
estimated cost (at the default 1000 tokens) fits the budget, else the
`"gemma"` fallback. -/
def select_from_candidates (task : String) (max_budget : ℚ) : List String → String
  | [] => "gemma"
  | m :: rest =>
    if estimate_cost task m 1000 ≤ max_budget then m
    else select_from_candidates task max_budget rest

/-- `select_optimal_model(task, max_budget, required_quality)`. -/
def select_optimal_model (task : String) (max_budget : ℚ) (required_quality : String) : String :=
  select_from_candidates task max_budget (quality_tiers required_quality)

/-- `estimate_tokens(text)`: characters divided by four, floored,
minimum 1 for non-empty text, 0 for empty text. -/
def estimate_tokens (text : String) : Nat :=
  if text.length = 0 then 0 else max 1 (text.length / 4)

/-! ## Token budget limiter (`TokenBudgetLimiter`) -/

/-- One per-tenant window record of `TokenBudgetLimiter._usage`. -/
structure WindowEntry where
  window_start : ℚ
  tokens_used : Nat
deriving DecidableEq, Repr

/-- The limiter state: configured window length and the per-tenant
usage dictionary. -/
structure LimiterState where
  window_seconds : ℚ
  usage : String → Option WindowEntry

/-- A freshly constructed `TokenBudgetLimiter()` (default window 60s,
no tenant history). -/
def LimiterState.init : LimiterState := ⟨60, fun _ => none⟩

namespace TokenBudgetLimiter

/-- `TokenBudgetLimiter.allow(tenant_id, tokens, limit)` at time `now`,
returning the decision and the successor state.  The per-call critical
section of the source is one atomic step here. -/
def allow (st : LimiterState) (now : ℚ) (tenant_id : String) (tokens : Nat) (limit : Nat) :
    Bool × LimiterState :=
  let needs_reset : Bool :=
    match st.usage tenant_id with
    | none => true
    | some e => decide (now - e.window_start ≥ st.window_seconds)
  let entry : WindowEntry :=
    if needs_reset then ⟨now, 0⟩ else (st.usage tenant_id).getD ⟨now, 0⟩
  let st1 : LimiterState :=
    if needs_reset then
      ⟨st.window_seconds, fun t => if t = tenant_id then some entry else st.usage t⟩
    else st
  if entry.tokens_used + tokens > limit then
    (false, st1)
  else
    (true,
     ⟨st1.window_seconds,
      fun t =>
        if t = tenant_id then some ⟨entry.window_start, entry.tokens_used + tokens⟩
        else st1.usage t⟩)

end TokenBudgetLimiter

/-- Iterating `allow` for one tenant over a list of (time, tokens)
calls, collecting the decisions. -/
def runAllows (st : LimiterState) (tenant_id : String) (limit : Nat) :
    List (ℚ × Nat) → List Bool × LimiterState
  | [] => ([], st)
  | c :: rest =>
    let r := TokenBudgetLimiter.allow st c.1 tenant_id c.2 limit
    let r2 := runAllows r.2 tenant_id limit rest
    (r.1 :: r2.1, r2.2)

/-- Cumulative tokens requested by the first `i` calls of a sequence. -/
def cumTok (calls : List (ℚ × Nat)) (i : Nat) : Nat :=
  ((calls.take i).map Prod.snd).sum

theorem cumTok_zero (calls : List (ℚ × Nat)) : cumTok calls 0 = 0 := rfl

theorem cumTok_cons_succ (c : ℚ × Nat) (calls : List (ℚ × Nat)) (i : Nat) :
    cumTok (c :: calls) (i + 1) = c.2 + cumTok calls i := by
  simp [cumTok]

theorem cumTok_one (c : ℚ × Nat) (calls : List (ℚ × Nat)) :
    cumTok (c :: calls) 1 = c.2 := by
  simp [cumTok]

/-- Evaluation of `allow` for a tenant with no window record: a fresh
window is created at `now` and the request is admitted iff it fits the
limit on its own. -/
theorem TokenBudgetLimiter.allow_empty_eval
    (st : LimiterState) (now : ℚ) (tid : String) (k limit : Nat)
    (h : st.usage tid = none) :
    (allow st now tid k limit).1 = decide (k ≤ limit)
    ∧ (allow st now tid k limit).2.window_seconds = st.window_seconds
    ∧ (allow st now tid k limit).2.usage tid
        = some ⟨now, if k ≤ limit then k else 0⟩
    ∧ ∀ t, t ≠ tid → (allow st now tid k limit).2.usage t = st.usage t := by
  by_cases hk : k ≤ limit
  · have hgt : ¬ limit < k := Nat.not_lt.mpr hk
    refine ⟨by simp [allow, h, hgt, hk], by simp [allow, h, hgt, hk],
      by simp [allow, h, hgt, hk], ?_⟩
    intro t ht
    simp [allow, h, hgt, hk, ht]
  · have hgt : limit < k := Nat.not_le.mp hk
    refine ⟨by simp [allow, h, hgt, hk], by simp [allow, h, hgt, hk],
      by simp [allow, h, hgt, hk], ?_⟩
    intro t ht
    simp [allow, h, hgt, hk, ht]

/-- Evaluation of `allow` for a tenant whose window record is still
inside the active window: no reset, admission iff the cumulative count
stays at or below the limit, and denial leaves the count unchanged. -/
theorem TokenBudgetLimiter.allow_in_window_eval
    (st : LimiterState) (now : ℚ) (tid : String) (k limit : Nat)
    (ws : ℚ) (u : Nat)
    (h : st.usage tid = some ⟨ws, u⟩)
    (hlt : now - ws < st.window_seconds) :
    (allow st now tid k limit).1 = decide (u + k ≤ limit)
    ∧ (allow st now tid k limit).2.window_seconds = st.window_seconds
    ∧ (allow st now tid k limit).2.usage tid
        = some ⟨ws, if u + k ≤ limit then u + k else u⟩
    ∧ ∀ t, t ≠ tid → (allow st now tid k limit).2.usage t = st.usage t := by
  have hres : ¬ (now - ws ≥ st.window_seconds) := not_le.mpr hlt
  by_cases hk : u + k ≤ limit
  · have hgt : ¬ (u + k > limit) := by omega
    refine ⟨?_, ?_, ?_, ?_⟩ <;>
      simp [allow, h, hres, hgt, hk]
    intro t ht
    simp [ht]
  · have hgt : u + k > limit := by omega
    refine ⟨?_, ?_, ?_, ?_⟩ <;>
      simp [allow, h, hres, hgt, hk]

/-- Behaviour of a run of `allow` calls that all fall inside the window
opened at `ws`, starting from a tenant record with `u` tokens used:
each call is admitted iff the cumulative count stays at or below the
limit, counting only admitted calls. -/
theorem runAllows_in_window
    (tid : String) (limit : Nat) (ws : ℚ) :
    ∀ (calls : List (ℚ × Nat)) (st : LimiterState) (u : Nat),
      st.usage tid = some ⟨ws, u⟩ →
      (∀ c ∈ calls, c.1 - ws < st.window_seconds) →
      (∀ i, i + 1 < calls.length → u + cumTok calls (i + 1) ≤ limit) →
      (runAllows st tid limit calls).1
        = (List.range calls.length).map (fun i => decide (u + cumTok calls (i + 1) ≤ limit))
      ∧ (runAllows st tid limit calls).2.usage tid
        = some ⟨ws, u + (if u + cumTok calls calls.length ≤ limit
                         then cumTok calls calls.length
                         else cumTok calls (calls.length - 1))⟩
  | [], st, u, hentry, _, _ => by
    refine ⟨by simp [runAllows], ?_⟩
    simp [runAllows, cumTok, hentry]
  | c :: rest, st, u, hentry, hwin, hpre => by
    have heval := TokenBudgetLimiter.allow_in_window_eval st c.1 tid c.2 limit ws u hentry
      (hwin c (by simp))
    obtain ⟨h1, h2, h3, _h4⟩ := heval
    set r := TokenBudgetLimiter.allow st c.1 tid c.2 limit with hr
    match rest with
    | [] =>
      refine ⟨?_, ?_⟩
      · show r.1 :: (runAllows r.2 tid limit []).1 = _
        rw [show List.range ([c] : List (ℚ × Nat)).length = [0] from rfl]
        simp [runAllows, h1, cumTok_one]
      · show (runAllows r.2 tid limit []).2.usage tid = _
        simp only [runAllows, h3, List.length_cons, List.length_nil, cumTok_one]
        by_cases hk : u + c.2 ≤ limit <;> simp [hk, cumTok_zero, cumTok_one]
    | d :: rest2 =>
      have hk : u + c.2 ≤ limit := by
        have := hpre 0 (by simp)
        simpa [cumTok_one] using this
      have hentry2 : r.2.usage tid = some ⟨ws, u + c.2⟩ := by
        rw [h3, if_pos hk]
      have hwin2 : ∀ e ∈ d :: rest2, e.1 - ws < r.2.window_seconds := by
        intro e he
        rw [h2]
        exact hwin e (List.mem_cons_of_mem c he)
      have hpre2 : ∀ i, i + 1 < (d :: rest2).length →
          u + c.2 + cumTok (d :: rest2) (i + 1) ≤ limit := by
        intro i hi
        have := hpre (i + 1) (by simpa using Nat.succ_lt_succ hi)
        rw [cumTok_cons_succ] at this
        omega
      have IH := runAllows_in_window tid limit ws (d :: rest2) r.2 (u + c.2)
        hentry2 hwin2 hpre2
      refine ⟨?_, ?_⟩
      · show r.1 :: (runAllows r.2 tid limit (d :: rest2)).1 = _
        rw [IH.1, h1]
        rw [show (c :: d :: rest2 : List (ℚ × Nat)).length = (d :: rest2 : List (ℚ × Nat)).length + 1 from rfl]
        rw [List.range_succ_eq_map]
        simp only [List.map_cons, List.map_map, List.cons.injEq]
        constructor
        · simp [cumTok_one, hk]
        · apply List.map_congr_left
          intro a _
          simp only [Function.comp_apply, Nat.succ_eq_add_one, decide_eq_decide]
          rw [cumTok_cons_succ c (d :: rest2) (a + 1)]
          omega
      · show (runAllows r.2 tid limit (d :: rest2)).2.usage tid = _
        rw [IH.2]
        have hlen : (c :: d :: rest2).length = (d :: rest2).length + 1 := rfl
        rw [hlen]
        rw [cumTok_cons_succ]
        have hlen2 : (d :: rest2).length + 1 - 1 = ((d :: rest2).length - 1) + 1 := by
          simp
        rw [hlen2, cumTok_cons_succ]
        congr 2
        by_cases hfits : u + c.2 + cumTok (d :: rest2) (d :: rest2).length ≤ limit
        · rw [if_pos hfits, if_pos (by omega)]
          omega
        · rw [if_neg hfits, if_neg (by omega)]
          omega

/-- C2: for a tenant with empty history and a sequence of `allow`
calls falling inside one window, of which all but possibly the last
keep the cumulative token count at or below the limit: every call
whose addition keeps the cumulative count at or below the limit
returns true, the first call pushing the cumulative count over the
limit returns false, and the recorded `tokens_used` after the run is
the cumulative count of the admitted calls (a trailing denial leaves
the previously admitted total unchanged). -/
theorem tokenBudgetLimiter_window_admission
    (st : LimiterState) (tid : String) (limit : Nat)
    (t0 : ℚ) (k0 : Nat) (rest : List (ℚ × Nat))
    (hempty : st.usage tid = none)
    (hwin : ∀ c ∈ (t0, k0) :: rest, c.1 - t0 < st.window_seconds)
    (hpre : ∀ i, i + 1 < ((t0, k0) :: rest : List (ℚ × Nat)).length →
      cumTok ((t0, k0) :: rest) (i + 1) ≤ limit) :
    (runAllows st tid limit ((t0, k0) :: rest)).1
      = (List.range ((t0, k0) :: rest : List (ℚ × Nat)).length).map
          (fun i => decide (cumTok ((t0, k0) :: rest) (i + 1) ≤ limit))
    ∧ (runAllows st tid limit ((t0, k0) :: rest)).2.usage tid
      = some ⟨t0,
          if cumTok ((t0, k0) :: rest) ((t0, k0) :: rest : List (ℚ × Nat)).length ≤ limit
          then cumTok ((t0, k0) :: rest) ((t0, k0) :: rest : List (ℚ × Nat)).length
          else cumTok ((t0, k0) :: rest) (((t0, k0) :: rest : List (ℚ × Nat)).length - 1)⟩ := by
  obtain ⟨h1, h2, h3, _h4⟩ :=
    TokenBudgetLimiter.allow_empty_eval st t0 tid k0 limit hempty
  set r := TokenBudgetLimiter.allow st t0 tid k0 limit with hr
  cases rest with
  | nil =>
    refine ⟨?_, ?_⟩
    · show r.1 :: (runAllows r.2 tid limit []).1 = _
      rw [show List.range ([(t0, k0)] : List (ℚ × Nat)).length = [0] from rfl]
      simp [runAllows, h1, cumTok_one]
    · show (runAllows r.2 tid limit []).2.usage tid = _
      simp only [runAllows, h3, List.length_cons, List.length_nil, cumTok_one]
      by_cases hk : k0 ≤ limit <;> simp [hk, cumTok_zero, cumTok_one]
  | cons d rest2 =>
    have hk0 : k0 ≤ limit := by
      have := hpre 0 (by simp)
      simpa [cumTok_one] using this
    have hentry2 : r.2.usage tid = some ⟨t0, k0⟩ := by
      rw [h3, if_pos hk0]
    have hwin2 : ∀ e ∈ d :: rest2, e.1 - t0 < r.2.window_seconds := by
      intro e he
      rw [h2]
      exact hwin e (List.mem_cons_of_mem _ he)
    have hpre2 : ∀ i, i + 1 < (d :: rest2).length →
        k0 + cumTok (d :: rest2) (i + 1) ≤ limit := by
      intro i hi
      have := hpre (i + 1) (by simpa using Nat.succ_lt_succ hi)
      rw [cumTok_cons_succ] at this
      omega
    have IH := runAllows_in_window tid limit t0 (d :: rest2) r.2 k0
      hentry2 hwin2 hpre2
    refine ⟨?_, ?_⟩
    · show r.1 :: (runAllows r.2 tid limit (d :: rest2)).1 = _
      rw [IH.1, h1]
      rw [show ((t0, k0) :: d :: rest2 : List (ℚ × Nat)).length
            = (d :: rest2 : List (ℚ × Nat)).length + 1 from rfl]
      rw [List.range_succ_eq_map]
      simp only [List.map_cons, List.map_map, List.cons.injEq]
      constructor
      · simp [cumTok_one, hk0]
      · apply List.map_congr_left
        intro a _
        simp only [Function.comp_apply, Nat.succ_eq_add_one, decide_eq_decide]
        rw [cumTok_cons_succ (t0, k0) (d :: rest2) (a + 1)]
    · show (runAllows r.2 tid limit (d :: rest2)).2.usage tid = _
      rw [IH.2]
      have hlen : ((t0, k0) :: d :: rest2 : List (ℚ × Nat)).length
          = (d :: rest2).length + 1 := rfl
      rw [hlen]
      rw [cumTok_cons_succ (t0, k0) (d :: rest2) (d :: rest2).length]
      have hlen2 : (d :: rest2).length + 1 - 1 = ((d :: rest2).length - 1) + 1 := by
        simp
      rw [hlen2, cumTok_cons_succ (t0, k0) (d :: rest2) ((d :: rest2).length - 1)]
      congr 2
      by_cases hfits : k0 + cumTok (d :: rest2) (d :: rest2).length ≤ limit
      · rw [if_pos hfits, if_pos (by simpa using hfits)]
      · rw [if_neg hfits, if_neg (by simpa using hfits)]

/-- Witness for C2 at a concrete run: tenant "t", limit 10, three
calls of 4, 5 and 3 tokens inside one window.  The first two are
admitted, the third (which would make 12 > 10) is denied, and the
recorded usage stays at 9. -/
theorem tokenBudgetLimiter_window_admission_witness :
    (runAllows LimiterState.init "t" 10 [(0, 4), (1, 5), (2, 3)]).1
      = [true, true, false]
    ∧ (runAllows LimiterState.init "t" 10 [(0, 4), (1, 5), (2, 3)]).2.usage "t"
      = some ⟨0, 9⟩ := by
  have h := tokenBudgetLimiter_window_admission LimiterState.init "t" 10
    0 4 [(1, 5), (2, 3)] rfl
    (by intro c hc; fin_cases hc <;> norm_num [LimiterState.init])
    (by intro i hi
        have h2 : i < 2 := by simp at hi; omega
        interval_cases i <;> decide)
  refine ⟨?_, ?_⟩
  · rw [h.1]; decide
  · rw [h.2]; decide

/-! ## Admission rate limiter (`backend/core/rate_limit.py`)

The fallback dictionary `RateLimiter.memory_cache` is modelled as a
total function `String → Nat` where an absent key reads as 0 (matching
`self.memory_cache.get(key, 0)`, and `pop` on reset).  Calls into the
Redis store may fail; a failing call is an `Except.error`. -/

namespace RateLimiter

/-- `RateLimiter._memory_check(key, limit)`: read the counter (0 when
the key is missing), increment it unconditionally, allow iff the old
count is strictly below the limit.  The source takes no time or window
argument, so elapsed time never resets this counter. -/
def memory_check (cache : String → Nat) (key : String) (limit : Nat) :
    Bool × (String → Nat) :=
  let count := cache key
  (decide (count < limit), fun k => if k = key then count + 1 else cache k)

/-- `RateLimiter._redis_check(key, limit, window)`: the store returns
the incremented counter, and the inner handler returns True when the
store call fails. -/
def redis_check (incr_result : Except Unit Nat) (limit : Nat) : Bool :=
  match incr_result with
  | .ok count => decide (count ≤ limit)
  | .error _ => true

/-- `RateLimiter.allow_request(key, limit, window_seconds)`: `check` is
the outcome of the dispatched rate-limit check (Redis when a client is
configured, else the in-memory fallback), with `Except.error` modelling
an unexpected exception escaping the selected check.  The outer handler
fails open: an error yields True and leaves the fallback cache
untouched. -/
def allow_request (check : Except Unit (Bool × (String → Nat)))
    (cache : String → Nat) : Bool × (String → Nat) :=
  match check with
  | .ok r => r
  | .error _ => (true, cache)

/-- `RateLimiter.reset(key)` on the in-memory fallback: the key is
dropped from the dictionary, so it reads as 0 again. -/
def reset (cache : String → Nat) (key : String) : String → Nat :=
  fun k => if k = key then 0 else cache k

end RateLimiter

/-- `n` consecutive `allow_request` calls running on the in-memory
fallback (no Redis client configured, no faults), for one key. -/
def runMemChecks (cache : String → Nat) (key : String) (limit : Nat) :
    Nat → List Bool × (String → Nat)
  | 0 => ([], cache)
  | n + 1 =>
    let r := RateLimiter.allow_request
      (Except.ok (RateLimiter.memory_check cache key limit)) cache
    let r2 := runMemChecks r.2 key limit n
    (r.1 :: r2.1, r2.2)

/-- The fallback counter grows by one on every call, admitted or
denied, and the i-th call is admitted iff the counter was still below
the limit. -/
theorem runMemChecks_spec (key : String) (limit : Nat) :
    ∀ (n : Nat) (cache : String → Nat) (u : Nat), cache key = u →
      (runMemChecks cache key limit n).2 key = u + n
      ∧ (runMemChecks cache key limit n).1
        = (List.range n).map (fun i => decide (u + i < limit))
  | 0, cache, u, hu => by simp [runMemChecks, hu]
  | n + 1, cache, u, hu => by
    have IH := runMemChecks_spec key limit n
      (fun k => if k = key then cache key + 1 else cache k) (u + 1)
      (by simp [hu])
    constructor
    · show (runMemChecks (fun k => if k = key then cache key + 1 else cache k) key limit n).2 key
        = u + (n + 1)
      rw [IH.1]
      omega
    · show decide (cache key < limit)
          :: (runMemChecks (fun k => if k = key then cache key + 1 else cache k) key limit n).1
        = (List.range (n + 1)).map (fun i => decide (u + i < limit))
      rw [IH.2, List.range_succ_eq_map]
      simp only [List.map_cons, List.map_map, List.cons.injEq]
      refine ⟨by simp [hu], ?_⟩
      apply List.map_congr_left
      intro a _
      simp only [Function.comp_apply, Nat.succ_eq_add_one, decide_eq_decide]
      omega

/-- C9: the admission controller fails open.  When the selected
rate-limit check raises an unexpected error (an `Except.error`
outcome, which covers the process-local fallback path), `allow_request`
returns true instead of denying or propagating the exception; the
inner Redis check equally returns true when the store call fails. -/
theorem rateLimiter_fails_open :
    ∀ (cache : String → Nat) (e : Unit) (limit : Nat),
      (RateLimiter.allow_request (Except.error e) cache).1 = true
      ∧ RateLimiter.redis_check (Except.error e) limit = true := by
  intro cache e limit
  exact ⟨rfl, rfl⟩

/-- C10: under the in-memory fallback the per-key counter grows by one
on every `allow_request` call, denied calls included, and is never
reset by elapsed time (the fallback check takes no time argument); the
i-th call of a run is admitted iff fewer than `limit` calls preceded
it, so from an absent key the calls from index `limit` onwards are all
denied; `reset(key)` clears the counter so the next call is admitted
again (for a positive limit). -/
theorem rateLimiter_memory_fallback_counter
    (cache : String → Nat) (key : String) (limit n : Nat) :
    (runMemChecks cache key limit n).2 key = cache key + n
    ∧ (runMemChecks cache key limit n).1
      = (List.range n).map (fun i => decide (cache key + i < limit))
    ∧ (∀ i, i < n → limit ≤ cache key + i →
        (runMemChecks cache key limit n).1[i]? = some false)
    ∧ (RateLimiter.memory_check (RateLimiter.reset cache key) key limit).1
      = decide (0 < limit) := by
  have h := runMemChecks_spec key limit n cache (cache key) rfl
  refine ⟨h.1, h.2, ?_, by simp [RateLimiter.memory_check, RateLimiter.reset]⟩
  intro i hi hover
  rw [h.2, List.getElem?_map, List.getElem?_range hi]
  simp [Nat.not_lt.mpr hover]

/-- Witness for C10 at a concrete run: a fresh key with limit 2 and
four calls.  The counter reaches 4, the first two calls are admitted,
every later call is denied, and after a reset the key is admitted
again. -/
theorem rateLimiter_memory_fallback_counter_witness :
    (runMemChecks (fun _ => 0) "k" 2 4).2 "k" = 4
    ∧ (runMemChecks (fun _ => 0) "k" 2 4).1 = [true, true, false, false]
    ∧ (runMemChecks (fun _ => 0) "k" 2 4).1[3]? = some false := by
  have h := rateLimiter_memory_fallback_counter (fun _ => 0) "k" 2 4
  refine ⟨h.1, ?_, h.2.2.1 3 (by decide) (by decide)⟩
  rw [h.2.1]
  decide

/-! ## Response envelopes, payloads and the router (`backend/llm/router.py`) -/

/-- A normalized LLM response dictionary; a `none` field models an
absent key. -/
structure LLMResponse where
  response : Option String
  model : Option String
  tokens_used : Option Nat
  confidence : Option ℚ
  provider : Option String
  error : Option String
  estimated_cost : Option ℚ
deriving DecidableEq, Repr

/-- The payload dictionary assembled by `_execute_plan` and passed to
the router and the provider adapters.  The orchestrator sets only
`prompt`, `temperature` and `max_tokens`; `model` and
`gemini_api_key` model the optional dictionary keys. -/
structure Payload where
  prompt : String
  temperature : ℚ
  max_tokens : Nat
  model : Option String
  gemini_api_key : Option String
deriving DecidableEq, Repr

/-- Python truthiness of a response dictionary: the dictionary is falsy
iff it has no keys (`if not result: raise RuntimeError`). -/
def LLMResponse.isEmptyDict (r : LLMResponse) : Bool :=
  r.response.isNone && r.model.isNone && r.tokens_used.isNone &&
  r.confidence.isNone && r.provider.isNone && r.error.isNone &&
  r.estimated_cost.isNone

/-- One `LLM_PRIORITY` entry (name and cost ceiling) together with the
outcomes the upstream provider would produce for the successive
`provider.run(payload)` calls of this request: `Except.error` is a call
that raises, `Except.ok` one that returns. -/
structure ProviderCfg where
  name : String
  max_cost : ℚ
  attempts : List (Except Unit LLMResponse)

/-- The names and cost ceilings of the static `LLM_PRIORITY` list, in
source order. -/
def LLM_PRIORITY : List (String × ℚ) := [("gemma", 2/1000), ("openai", 2/100)]

/-- The static priority list instantiated with upstream behaviours for
one request. -/
def mkPriority (gemma_attempts openai_attempts : List (Except Unit LLMResponse)) :
    List ProviderCfg :=
  [⟨"gemma", 2/1000, gemma_attempts⟩, ⟨"openai", 2/100, openai_attempts⟩]

/-- The dead-code fall-through envelope at the end of
`_call_with_retries` (unreachable while `max(1, LLM_MAX_RETRIES) ≥ 1`
attempts are made). -/
def LLM_PROVIDER_FAILED_response : LLMResponse :=
  { response := some "LLM provider failed after retries."
    model := some "none"
    tokens_used := some 0
    confidence := some 0
    provider := some "none"
    error := some "LLM_PROVIDER_FAILED"
    estimated_cost := none }

/-- The terminal degraded envelope returned by `route_request` when the
provider loop is exhausted. -/
def LLM_ROUTING_FAILED_response : LLMResponse :=
  { response := some "LLM routing failed. Please retry later."
    model := some "none"
    tokens_used := some 0
    confidence := some 0
    provider := some "none"
    error := some "LLM_ROUTING_FAILED"
    estimated_cost := none }

/-- `LLMRouter._call_with_retries`: the argument lists the outcomes of
the `max(1, LLM_MAX_RETRIES)` possible attempts in order.  The first
returning attempt is taken; a raising attempt before the last triggers
a backoff sleep and a retry; a raising last attempt re-raises.  (The
`isinstance(result, dict)` guard always passes in this typed model.) -/
def call_with_retries : List (Except Unit LLMResponse) → Except Unit LLMResponse
  | [] => Except.ok LLM_PROVIDER_FAILED_response
  | [a] => a
  | a :: b :: rest =>
    match a with
    | .ok r => .ok r
    | .error _ => call_with_retries (b :: rest)

/-- The provider loop of `route_request`: a provider whose estimated
cost (at the default 1000 tokens) exceeds its ceiling is skipped
without being called; otherwise it is called through
`_call_with_retries` inside a try block and a raising or falsy result
falls through to the next provider, while a returning one is annotated
with the estimated cost and returned.  The second component collects
the names of the providers actually attempted (those on which `run`
was invoked). -/
def routeLoop (task : String) : List ProviderCfg → LLMResponse × List String
  | [] => (LLM_ROUTING_FAILED_response, [])
  | p :: rest =>
    let estimated_cost := estimate_cost task p.name 1000
    if estimated_cost > p.max_cost then routeLoop task rest
    else
      match call_with_retries p.attempts with
      | .ok result =>
        if result.isEmptyDict then
          let r := routeLoop task rest
          (r.1, p.name :: r.2)
        else
          ({ result with estimated_cost := some estimated_cost }, [p.name])
      | .error _ =>
        let r := routeLoop task rest
        (r.1, p.name :: r.2)

/-- `LLMRouter.route_request(payload, context)`: reads the task from
the payload, copies a `gemini_api_key` from the context into the
payload dictionary when the context carries one, then walks the
priority list.  Returns the chosen response, the payload as it stands
after the call, and the attempted provider names. -/
def route_request (providers : List ProviderCfg) (payload : Payload)
    (context_gemini_api_key : Option String) :
    LLMResponse × Payload × List String :=
  let task := payload.prompt
  let payload1 :=
    match context_gemini_api_key with
    | some k => { payload with gemini_api_key := some k }
    | none => payload
  let r := routeLoop task providers
  (r.1, payload1, r.2)

instance : DecidableEq (Except Unit LLMResponse)
  | .ok a, .ok b =>
    if h : a = b then .isTrue (by rw [h]) else .isFalse (by simp [h])
  | .ok _, .error _ => .isFalse (by simp)
  | .error _, .ok _ => .isFalse (by simp)
  | .error _, .error _ => .isTrue rfl

/-- A provider that the hypothesis of the exhaustion property covers:
skipped on cost grounds, or raising on every attempt. -/
def skippedOrFailing (task : String) (p : ProviderCfg) : Prop :=
  estimate_cost task p.name 1000 > p.max_cost
  ∨ ∀ a ∈ p.attempts, a = Except.error ()

instance (task : String) (p : ProviderCfg) : Decidable (skippedOrFailing task p) := by
  unfold skippedOrFailing
  infer_instance

/-- A non-empty all-raising attempt list makes `_call_with_retries`
re-raise. -/
theorem call_with_retries_all_error :
    ∀ (attempts : List (Except Unit LLMResponse)), attempts ≠ [] →
      (∀ a ∈ attempts, a = Except.error ()) →
      call_with_retries attempts = Except.error ()
  | [], h, _ => absurd rfl h
  | [a], _, hall => by
    have := hall a (by simp)
    rw [show call_with_retries [a] = a from rfl, this]
  | a :: b :: rest, _, hall => by
    have ha := hall a (by simp)
    subst ha
    show call_with_retries (b :: rest) = Except.error ()
    exact call_with_retries_all_error (b :: rest) (by simp)
      (fun x hx => hall x (List.mem_cons_of_mem _ hx))

/-- If every provider in the list is skipped or failing, the provider
loop falls through to the terminal routing-failure envelope. -/
theorem routeLoop_all_skipped_or_failing (task : String) :
    ∀ (providers : List ProviderCfg),
      (∀ p ∈ providers, p.attempts ≠ [] ∧ skippedOrFailing task p) →
      (routeLoop task providers).1 = LLM_ROUTING_FAILED_response
  | [], _ => rfl
  | p :: rest, h => by
    have hp := h p (by simp)
    have hrest := routeLoop_all_skipped_or_failing task rest
      (fun q hq => h q (List.mem_cons_of_mem _ hq))
    rcases hp.2 with hskip | hfail
    · simp [routeLoop, hskip, hrest]
    · have hcall : call_with_retries p.attempts = Except.error () :=
        call_with_retries_all_error p.attempts hp.1 hfail
      by_cases hskip : estimate_cost task p.name 1000 > p.max_cost
      · simp [routeLoop, hskip, hrest]
      · simp [routeLoop, hskip, hcall, hrest]

/-- C3: if every configured provider is either skipped on cost grounds
or raises on all of its bounded retries, `route_request` returns the
well-formed envelope carrying the `LLM_ROUTING_FAILED` error code.
Raised exceptions are modelled by `Except`, and `route_request` is a
total function into response envelopes — the catch-and-continue
structure of the loop means no exception reaches the caller. -/
theorem router_exhaustion_returns_envelope
    (providers : List ProviderCfg) (payload : Payload) (ctx_key : Option String)
    (h : ∀ p ∈ providers, p.attempts ≠ [] ∧ skippedOrFailing payload.prompt p) :
    (route_request providers payload ctx_key).1 = LLM_ROUTING_FAILED_response
    ∧ (route_request providers payload ctx_key).1.error = some "LLM_ROUTING_FAILED" := by
  have hmain : (route_request providers payload ctx_key).1 = LLM_ROUTING_FAILED_response :=
    routeLoop_all_skipped_or_failing payload.prompt providers h
  exact ⟨hmain, by rw [hmain]; rfl⟩

/-- Witness for C3: both statically configured providers raise on all
three attempts; the returned envelope carries `LLM_ROUTING_FAILED`. -/
theorem router_exhaustion_returns_envelope_witness :
    (route_request
      (mkPriority [Except.error (), Except.error (), Except.error ()]
                  [Except.error (), Except.error (), Except.error ()])
      ⟨"q", 1/2, 1000, none, none⟩ none).1.error = some "LLM_ROUTING_FAILED" :=
  (router_exhaustion_returns_envelope
    (mkPriority [Except.error (), Except.error (), Except.error ()]
                [Except.error (), Except.error (), Except.error ()])
    ⟨"q", 1/2, 1000, none, none⟩ none
    (by
      intro p hp
      fin_cases hp <;>
        exact ⟨by simp, Or.inr (by intro a ha; fin_cases ha <;> rfl)⟩)).2

/-- The providers actually attempted form an ordered sublist of the
providers whose estimated cost fits their ceiling: a provider over its
ceiling is never called, and the priority order is respected. -/
theorem routeLoop_attempted_sublist (task : String) :
    ∀ providers : List ProviderCfg,
      List.Sublist (routeLoop task providers).2
        ((providers.filter
            (fun p => decide (estimate_cost task p.name 1000 ≤ p.max_cost))).map ProviderCfg.name)
  | [] => List.nil_sublist _
  | p :: rest => by
    have IH := routeLoop_attempted_sublist task rest
    by_cases hskip : estimate_cost task p.name 1000 > p.max_cost
    · have hfilter : (decide (estimate_cost task p.name 1000 ≤ p.max_cost)) = false := by
        simp [not_le.mpr hskip]
      simp only [routeLoop, if_pos hskip, List.filter_cons, hfilter]
      exact IH
    · have hfilter : (decide (estimate_cost task p.name 1000 ≤ p.max_cost)) = true := by
        simp [not_lt.mp hskip]
      simp only [routeLoop, if_neg hskip, List.filter_cons, hfilter, if_pos, List.map_cons]
      cases hc : call_with_retries p.attempts with
      | error e =>
        exact List.Sublist.cons₂ _ IH
      | ok result =>
        by_cases he : result.isEmptyDict
        · simp only [he, if_true]
          exact List.Sublist.cons₂ _ IH
        · simp only [he, if_false, Bool.false_eq_true]
          exact List.Sublist.cons₂ _ (List.nil_sublist _)

/-- C6: the router walks the provider list in its static order, and
never calls `run` on a provider whose estimated cost exceeds its
ceiling: the attempted names always form an ordered sublist of the
cost-admissible providers.  For two providers whose shared estimated
cost lies strictly between their ceilings, exactly the provider with
the larger ceiling is attempted.  The static `LLM_PRIORITY` ceilings
are sorted in ascending order. -/
theorem router_cost_order
    (task : String) (providers : List ProviderCfg)
    (n1 n2 : String) (c1 c2 e : ℚ) (a1 a2 : List (Except Unit LLMResponse))
    (he1 : estimate_cost task n1 1000 = e)
    (he2 : estimate_cost task n2 1000 = e)
    (hc1 : c1 < e) (hc2 : e < c2) :
    List.Sublist (routeLoop task providers).2
      ((providers.filter
          (fun p => decide (estimate_cost task p.name 1000 ≤ p.max_cost))).map ProviderCfg.name)
    ∧ (routeLoop task [⟨n1, c1, a1⟩, ⟨n2, c2, a2⟩]).2 = [n2]
    ∧ List.Chain' (· ≤ ·) (LLM_PRIORITY.map Prod.snd) := by
  refine ⟨routeLoop_attempted_sublist task providers, ?_, ?_⟩
  · have hskip1 : estimate_cost task (⟨n1, c1, a1⟩ : ProviderCfg).name 1000
        > (⟨n1, c1, a1⟩ : ProviderCfg).max_cost := by
      show estimate_cost task n1 1000 > c1
      rw [he1]; exact hc1
    have hfit2 : ¬ estimate_cost task (⟨n2, c2, a2⟩ : ProviderCfg).name 1000
        > (⟨n2, c2, a2⟩ : ProviderCfg).max_cost := by
      show ¬ estimate_cost task n2 1000 > c2
      rw [he2]; exact not_lt.mpr (le_of_lt hc2)
    cases hc : call_with_retries a2 with
    | error e2 => simp [routeLoop, hskip1, hfit2, hc]
    | ok result =>
      by_cases he : result.isEmptyDict
      · simp [routeLoop, hskip1, hfit2, hc, he]
      · simp [routeLoop, hskip1, hfit2, hc, he]
  · simp [LLM_PRIORITY]
    norm_num

/-- Witness for C6: two providers outside the static price table (so
both estimate to the fallback cost 0.01), with ceilings 0.005 and
0.02.  Only the second is attempted. -/
theorem router_cost_order_witness :
    (routeLoop "q" [⟨"p1", 5/1000, [Except.error ()]⟩,
                    ⟨"p2", 2/100, [Except.error ()]⟩]).2 = ["p2"] :=
  (router_cost_order "q" [] "p1" "p2" (5/1000) (2/100) (1/100)
    [Except.error ()] [Except.error ()] rfl rfl (by norm_num) (by norm_num)).2.1

/-- C7 (amended): `route_request` leaves the payload unchanged when the
context carries no per-call Gemini credential, and otherwise changes
exactly the `gemini_api_key` field, leaving prompt, temperature,
max_tokens and model hint intact.  The provider adapters only read the
payload. -/
theorem route_request_payload_frame
    (providers : List ProviderCfg) (payload : Payload) :
    (route_request providers payload none).2.1 = payload
    ∧ ∀ k : String,
        (route_request providers payload (some k)).2.1
          = { payload with gemini_api_key := some k }
        ∧ (route_request providers payload (some k)).2.1.prompt = payload.prompt
        ∧ (route_request providers payload (some k)).2.1.temperature = payload.temperature
        ∧ (route_request providers payload (some k)).2.1.max_tokens = payload.max_tokens
        ∧ (route_request providers payload (some k)).2.1.model = payload.model :=
  ⟨rfl, fun _ => ⟨rfl, rfl, rfl, rfl, rfl⟩⟩

/-- C7 counterexample: with a per-call Gemini credential in the
context, `route_request` hands back a payload that differs from the
one passed in — the `gemini_api_key` field has been written, so the
request envelope is not immutable through the pipeline. -/
theorem route_request_mutates_payload_counterexample :
    (route_request (mkPriority [] []) ⟨"q", 1/2, 1000, none, none⟩ (some "k")).2.1
      ≠ (⟨"q", 1/2, 1000, none, none⟩ : Payload) := by
  intro h
  have h2 : (some "k" : Option String) = none := congrArg Payload.gemini_api_key h
  exact Option.noConfusion h2

/-! ## Provider adapters (`backend/llm/providers/openai.py` and
`backend/llm/providers/gemma.py`)

Each adapter has its own retry loop over `range(settings.LLM_MAX_RETRIES)`.
`upstream` lists the outcomes of the successive upstream SDK calls:
`none` is a call that raises, `some (content, tokens)` one that
returns.  The second component of the result counts the upstream calls
performed. -/

/-- `_mock_response` of `openai.py`. -/
def openai_mock_response : LLMResponse :=
  { response := some "Mock OpenAI response - API key not configured"
    model := some "mock-gpt-4"
    tokens_used := some 100
    confidence := some (1/2)
    provider := some "openai-mock"
    error := none
    estimated_cost := none }

/-- `_mock_response` of `gemma.py`. -/
def gemma_mock_response : LLMResponse :=
  { response := some "Mock Gemini response - API key not configured"
    model := some "mock-gemma"
    tokens_used := some 80
    confidence := some (1/2)
    provider := some "gemini-mock"
    error := none
    estimated_cost := none }

/-- The retry loop of `openai.run`: `fuel` counts the remaining
attempts.  With no credential (or SDK) the loop returns the mock
response without any upstream call; a raising upstream call before the
last attempt sleeps `2 ** attempt` and retries; a raising last attempt
returns the mock response. -/
def openai_run_loop (key_configured : Bool) (model : String) :
    Nat → List (Option (String × Nat)) → LLMResponse × Nat
  | 0, _ => (openai_mock_response, 0)
  | fuel + 1, upstream =>
    if key_configured = false then (openai_mock_response, 0)
    else
      match upstream with
      | [] => (openai_mock_response, 0)
      | none :: rest =>
        if fuel = 0 then (openai_mock_response, 1)
        else
          let r := openai_run_loop key_configured model fuel rest
          (r.1, r.2 + 1)
      | some content_tokens :: _ =>
        ({ response := some content_tokens.1
           model := some model
           tokens_used := some content_tokens.2
           confidence := some (9/10)
           provider := some "openai"
           error := none
           estimated_cost := none }, 1)

/-- `openai.run(payload)`: `key_configured` models
`settings.OPENAI_API_KEY` being set and the SDK being importable. -/
def openai_run (payload : Payload) (key_configured : Bool)
    (upstream : List (Option (String × Nat))) : LLMResponse × Nat :=
  openai_run_loop key_configured (payload.model.getD OPENAI_MODEL)
    LLM_MAX_RETRIES upstream

/-- The retry loop of `gemma.run`, identical in structure to the
OpenAI one but with the Gemini response fields. -/
def gemma_run_loop (key_configured : Bool) (model : String) :
    Nat → List (Option (String × Nat)) → LLMResponse × Nat
  | 0, _ => (gemma_mock_response, 0)
  | fuel + 1, upstream =>
    if key_configured = false then (gemma_mock_response, 0)
    else
      match upstream with
      | [] => (gemma_mock_response, 0)
      | none :: rest =>
        if fuel = 0 then (gemma_mock_response, 1)
        else
          let r := gemma_run_loop key_configured model fuel rest
          (r.1, r.2 + 1)
      | some content_tokens :: _ =>
        ({ response := some content_tokens.1
           model := some model
           tokens_used := some content_tokens.2
           confidence := some (17/20)
           provider := some "gemini"
           error := none
           estimated_cost := none }, 1)

/-- `gemma.run(payload)`: the credential is the payload-borne
`gemini_api_key` override, else the environment `GEMINI_API_KEY`
(`env_key_configured`); `sdk_available` models the Gemini SDK import
succeeding. -/
def gemma_run (payload : Payload) (sdk_available env_key_configured : Bool)
    (upstream : List (Option (String × Nat))) : LLMResponse × Nat :=
  let api_key_present := payload.gemini_api_key.isSome || env_key_configured
  gemma_run_loop (sdk_available && api_key_present)
    (payload.model.getD GEMMA_MODEL) LLM_MAX_RETRIES upstream

theorem openai_run_loop_count_le (key : Bool) (model : String) :
    ∀ (fuel : Nat) (upstream : List (Option (String × Nat))),
      (openai_run_loop key model fuel upstream).2 ≤ fuel
  | 0, _ => Nat.le_refl 0
  | fuel + 1, upstream => by
    by_cases hkey : key = false
    · simp [openai_run_loop, hkey]
    · cases upstream with
      | nil => simp [openai_run_loop, hkey]
      | cons o rest =>
        cases o with
        | some x => simp [openai_run_loop, hkey]
        | none =>
          by_cases hf : fuel = 0
          · simp [openai_run_loop, hkey, hf]
          · have IH := openai_run_loop_count_le key model fuel rest
            simp only [openai_run_loop, if_neg hkey, if_neg hf]
            omega

theorem openai_run_loop_all_fail (model : String) :
    ∀ (fuel : Nat) (upstream : List (Option (String × Nat))),
      fuel ≤ upstream.length →
      (∀ o ∈ upstream, o = none) →
      (openai_run_loop true model fuel upstream).2 = fuel
  | 0, _, _, _ => rfl
  | fuel + 1, [], hlen, _ => by simp at hlen
  | fuel + 1, o :: rest, hlen, hall => by
    have ho := hall o (by simp)
    subst ho
    by_cases hf : fuel = 0
    · simp [openai_run_loop, hf]
    · have IH := openai_run_loop_all_fail model fuel rest
        (by simp at hlen; omega)
        (fun x hx => hall x (List.mem_cons_of_mem _ hx))
      simp only [openai_run_loop, if_neg hf]
      simp [IH]

theorem gemma_run_loop_count_le (key : Bool) (model : String) :
    ∀ (fuel : Nat) (upstream : List (Option (String × Nat))),
      (gemma_run_loop key model fuel upstream).2 ≤ fuel
  | 0, _ => Nat.le_refl 0
  | fuel + 1, upstream => by
    by_cases hkey : key = false
    · simp [gemma_run_loop, hkey]
    · cases upstream with
      | nil => simp [gemma_run_loop, hkey]
      | cons o rest =>
        cases o with
        | some x => simp [gemma_run_loop, hkey]
        | none =>
          by_cases hf : fuel = 0
          · simp [gemma_run_loop, hkey, hf]
          · have IH := gemma_run_loop_count_le key model fuel rest
            simp only [gemma_run_loop, if_neg hkey, if_neg hf]
            omega

theorem gemma_run_loop_all_fail (model : String) :
    ∀ (fuel : Nat) (upstream : List (Option (String × Nat))),
      fuel ≤ upstream.length →
      (∀ o ∈ upstream, o = none) →
      (gemma_run_loop true model fuel upstream).2 = fuel
  | 0, _, _, _ => rfl
  | fuel + 1, [], hlen, _ => by simp at hlen
  | fuel + 1, o :: rest, hlen, hall => by
    have ho := hall o (by simp)
    subst ho
    by_cases hf : fuel = 0
    · simp [gemma_run_loop, hf]
    · have IH := gemma_run_loop_all_fail model fuel rest
        (by simp at hlen; omega)
        (fun x hx => hall x (List.mem_cons_of_mem _ hx))
      simp only [gemma_run_loop, if_neg hf]
      simp [IH]

/-- C5 counterexample: with a configured credential and an upstream
that raises on every call, one `openai.run` invocation (and one
`gemma.run` invocation) performs `LLM_MAX_RETRIES = 3` upstream calls,
not exactly one: the retry loop lives inside the adapter. -/
theorem provider_adapter_single_call_counterexample :
    (openai_run ⟨"q", 1/2, 1000, none, none⟩ true [none, none, none]).2 = 3
    ∧ (gemma_run ⟨"q", 1/2, 1000, none, some "g"⟩ true false [none, none, none]).2 = 3
    ∧ (3 : Nat) ≠ 1 :=
  ⟨rfl, rfl, by decide⟩

/-- C5 (amended): each adapter invocation performs between 0 and
`LLM_MAX_RETRIES` upstream calls — none when no credential or SDK is
configured (mock response), exactly one when the first upstream call
returns, one per raising call up to `LLM_MAX_RETRIES` when every call
raises.  The adapters retry internally with exponential backoff, and
the router retries on top of that in `_call_with_retries`. -/
theorem provider_adapters_internal_retries
    (payload : Payload) (upstream : List (Option (String × Nat))) :
    (openai_run payload true upstream).2 ≤ LLM_MAX_RETRIES
    ∧ (∀ x rest, upstream = some x :: rest → (openai_run payload true upstream).2 = 1)
    ∧ (LLM_MAX_RETRIES ≤ upstream.length → (∀ o ∈ upstream, o = none) →
        (openai_run payload true upstream).2 = LLM_MAX_RETRIES)
    ∧ (openai_run payload false upstream).2 = 0
    ∧ (gemma_run payload true true upstream).2 ≤ LLM_MAX_RETRIES
    ∧ (∀ x rest, upstream = some x :: rest → (gemma_run payload true true upstream).2 = 1)
    ∧ (LLM_MAX_RETRIES ≤ upstream.length → (∀ o ∈ upstream, o = none) →
        (gemma_run payload true true upstream).2 = LLM_MAX_RETRIES)
    ∧ (payload.gemini_api_key = none → (gemma_run payload true false upstream).2 = 0)
    ∧ (gemma_run payload false true upstream).2 = 0 := by
  refine ⟨openai_run_loop_count_le true _ LLM_MAX_RETRIES upstream, ?_, ?_, rfl,
    ?_, ?_, ?_, ?_, rfl⟩
  · intro x rest hup
    subst hup
    rfl
  · intro hlen hall
    exact openai_run_loop_all_fail _ LLM_MAX_RETRIES upstream hlen hall
  · show (gemma_run_loop _ _ LLM_MAX_RETRIES upstream).2 ≤ LLM_MAX_RETRIES
    exact gemma_run_loop_count_le _ _ LLM_MAX_RETRIES upstream
  · intro x rest hup
    subst hup
    show (gemma_run_loop (true && (payload.gemini_api_key.isSome || true)) _
        LLM_MAX_RETRIES (some x :: rest)).2 = 1
    rw [Bool.or_true]
    rfl
  · intro hlen hall
    show (gemma_run_loop (true && (payload.gemini_api_key.isSome || true)) _
        LLM_MAX_RETRIES upstream).2 = LLM_MAX_RETRIES
    rw [Bool.or_true]
    exact gemma_run_loop_all_fail _ LLM_MAX_RETRIES upstream hlen hall
  · intro hnone
    show (gemma_run_loop (true && (payload.gemini_api_key.isSome || false)) _
        LLM_MAX_RETRIES upstream).2 = 0
    rw [hnone]
    rfl

/-- Witness for C5 (amended) at concrete inputs: a first-attempt
success costs exactly one upstream call, and a credential-less gemma
invocation costs none. -/
theorem provider_adapters_internal_retries_witness :
    (openai_run ⟨"q", 1/2, 1000, none, none⟩ true [some ("ok", 10)]).2 = 1
    ∧ (gemma_run ⟨"q", 1/2, 1000, none, none⟩ true false [none]).2 = 0 := by
  have h := provider_adapters_internal_retries ⟨"q", 1/2, 1000, none, none⟩ [some ("ok", 10)]
  have h2 := provider_adapters_internal_retries ⟨"q", 1/2, 1000, none, none⟩ [none]
  exact ⟨h.2.1 ("ok", 10) [] rfl, h2.2.2.2.2.2.2.2.1 rfl⟩

/-! ## Cost model theorems (C8) -/

/-- The estimating formula exactly as the specification words it:
60 percent input / 40 percent output split, per-1000 pricing, rounded
to six decimals; unknown model gives the fallback constant. -/
def estimate_cost_specFormula (model : String) (token_count : ℚ) : ℚ :=
  match lookup_costs model with
  | none => 1/100
  | some prices =>
    round6 (token_count * (6/10) / 1000 * prices.1
      + token_count * (4/10) / 1000 * prices.2)

/-- C8: `estimate_cost` is a pure function of its arguments: it does
not depend on the task text, for a model in the static price table it
returns the rounded 60/40-split formula of the specification, and for
a model outside the table it returns the constant 0.01 without
failing.  Determinism is inherent: the embedding is a function, so
identical arguments give identical results and no state exists to
mutate. -/
theorem estimate_cost_pure_formula
    (task task2 model : String) (t : ℚ) :
    estimate_cost task model t = estimate_cost task2 model t
    ∧ estimate_cost task model t = estimate_cost_specFormula model t
    ∧ (lookup_costs model = none → estimate_cost task model t = 1/100)
    ∧ (∀ inp outp, lookup_costs model = some (inp, outp) →
        estimate_cost task model t
          = round6 (t * (6/10) / 1000 * inp + t * (4/10) / 1000 * outp)) := by
  refine ⟨rfl, rfl, ?_, ?_⟩
  · intro h
    simp [estimate_cost, h]
  · intro inp outp h
    simp [estimate_cost, h]

/-- Witness for C8: the fallback constant on a model outside the
table, and the exact formula instance for gpt-4. -/
theorem estimate_cost_pure_formula_witness :
    estimate_cost "a" "nonexistent-model" 500 = 1/100
    ∧ estimate_cost "a" "gpt-4" 500
      = round6 (500 * (6/10) / 1000 * (3/100) + 500 * (4/10) / 1000 * (6/100)) := by
  have h1 := estimate_cost_pure_formula "a" "b" "nonexistent-model" 500
  have h2 := estimate_cost_pure_formula "a" "b" "gpt-4" 500
  exact ⟨h1.2.2.1 rfl, h2.2.2.2 (3/100) (6/100) rfl⟩

/-! ## Cost optimizer and query orchestrator
(`backend/agents/orchestrator.py`, `CostOptimizer` of
`backend/core/cost_controller.py`) -/

/-- One step of an execution plan, as built by
`_create_execution_plan`. -/
structure PlanStep where
  step : Nat
  action : String
  description : String
deriving DecidableEq, Repr

/-- The dictionary returned by `_execute_plan`. -/
structure PlanResult where
  answer : Option String
  confidence : Option ℚ
  model : Option String
  tokens_used : Option Nat
  execution_time_ms : Option Nat
  error : Option String
deriving DecidableEq, Repr

/-- The `metadata` sub-dictionary of the final envelope. -/
structure Metadata where
  model : Option String
  tokens_used : Option Nat
  execution_time_ms : Option Nat
deriving DecidableEq, Repr

/-- The envelope returned by `execute_query`. -/
structure AnswerEnvelope where
  answer : Option String
  confidence : ℚ
  steps : List PlanStep
  metadata : Option Metadata
  error : Option String
deriving DecidableEq, Repr

/-- The shared mutable state one query execution touches: the token
budget limiter and the `CostOptimizer` dictionaries
(`daily_budgets`, `usage_cache`). -/
structure OrchState where
  limiter : LimiterState
  daily_budgets : String → Option ℚ
  usage_cache : String → Option ℚ

/-- `CostOptimizer.check_budget(tenant_id, requested_cost)`: true iff
current usage plus the requested cost stays within the daily budget
(default 100 dollars). -/
def check_budget (st : OrchState) (tenant_id : String) (requested_cost : ℚ) : Bool :=
  let daily_budget := (st.daily_budgets tenant_id).getD 100
  let current_usage := (st.usage_cache tenant_id).getD 0
  decide (current_usage + requested_cost ≤ daily_budget)

/-- `CostOptimizer.update_usage(tenant_id, cost)`: adds the cost to the
usage cache, creating the entry at 0 if absent. -/
def update_usage (st : OrchState) (tenant_id : String) (cost : ℚ) : OrchState :=
  { st with usage_cache := fun t =>
      if t = tenant_id then some ((st.usage_cache tenant_id).getD 0 + cost)
      else st.usage_cache t }

/-- `AgentOrchestrator._create_execution_plan(query, context)`: a
single analyze-and-answer step embedding the raw query text. -/
def create_execution_plan (query : String) : List PlanStep :=
  [⟨1, "analyze_query", "Analyze and answer: " ++ query⟩]

/-- `AgentOrchestrator._execute_plan(plan, context)` at time `now`,
with the upstream behaviours for this request given by `providers`.
Returns the plan result, the successor state and whether the router
was invoked.  An empty plan makes `plan[0]` raise, which the body
re-raises (`Except.error`); nothing else in this model can raise. -/
def executePlan (st : OrchState) (now : ℚ) (providers : List ProviderCfg)
    (plan : List PlanStep) (ctx_tenant_id : Option String)
    (ctx_gemini_api_key : Option String) :
    Except Unit (PlanResult × OrchState × Bool) :=
  match plan with
  | [] => .error ()
  | step :: _ =>
    let payload : Payload :=
      { prompt := step.description
        temperature := 1/2
        max_tokens := min OPENAI_MAX_TOKENS 1000
        model := none
        gemini_api_key := none }
    let tenant_id := ctx_tenant_id.getD "default"
    let estimated_tokens := estimate_tokens payload.prompt + payload.max_tokens
    let ra := TokenBudgetLimiter.allow st.limiter now tenant_id estimated_tokens
      MAX_TOKENS_PER_MIN
    let st1 : OrchState := { st with limiter := ra.2 }
    if ra.1 = false then
      .ok ({ answer := some "Token budget exceeded. Please retry later."
             confidence := some 0
             model := none
             tokens_used := none
             execution_time_ms := none
             error := some "TOKEN_BUDGET_EXCEEDED" }, st1, false)
    else
      let selected_model := select_optimal_model payload.prompt (5/100) "medium"
      let estimated_cost := estimate_cost payload.prompt selected_model (estimated_tokens : ℚ)
      if check_budget st1 tenant_id estimated_cost = false then
        .ok ({ answer := some "Cost budget exceeded. Please retry later."
               confidence := some 0
               model := none
               tokens_used := none
               execution_time_ms := none
               error := some "COST_BUDGET_EXCEEDED" }, st1, false)
      else
        let rr := route_request providers payload ctx_gemini_api_key
        let st2 := update_usage st1 tenant_id (rr.1.estimated_cost.getD estimated_cost)
        .ok ({ answer := rr.1.response
               confidence := rr.1.confidence
               model := rr.1.model
               tokens_used := rr.1.tokens_used
               execution_time_ms := some 100
               error := none }, st2, true)

/-- `AgentOrchestrator.execute_query(query, context)`: build the
single-step plan, execute it, and shape the final envelope from the
plan result.  Memory retrieval and persistence are external
best-effort collaborators whose failures are swallowed and do not
influence the envelope, so they are not represented.  The outer
handler turns an escaped exception into the generic degraded envelope
(whose `error` field holds the exception text). -/
def executeQuery (st : OrchState) (now : ℚ) (providers : List ProviderCfg)
    (query : String) (ctx_tenant_id : Option String)
    (ctx_gemini_api_key : Option String) :
    AnswerEnvelope × OrchState :=
  match executePlan st now providers (create_execution_plan query)
      ctx_tenant_id ctx_gemini_api_key with
  | .ok r =>
    ({ answer := r.1.answer
       confidence := r.1.confidence.getD (8/10)
       steps := create_execution_plan query
       metadata := some ⟨r.1.model, r.1.tokens_used, r.1.execution_time_ms⟩
       error := none }, r.2.1)
  | .error _ =>
    ({ answer := some "I encountered an error processing your query. Please try again."
       confidence := 0
       steps := []
       metadata := none
       error := some "exception text" }, st)

/-! Derived accessors for the values the pipeline computes for a
query; each is definitionally the value appearing inside
`executePlan`. -/

/-- The prompt of the single plan step built for a query. -/
def planPrompt (query : String) : String := "Analyze and answer: " ++ query

/-- The orchestrator's token estimate for the query prompt. -/
def planTokenEstimate (query : String) : Nat :=
  estimate_tokens (planPrompt query) + min OPENAI_MAX_TOKENS 1000

/-- The model the orchestrator selects for the query. -/
def planSelectedModel (query : String) : String :=
  select_optimal_model (planPrompt query) (5/100) "medium"

/-- The orchestrator's own cost estimate for the query. -/
def planEstimatedCost (query : String) : ℚ :=
  estimate_cost (planPrompt query) (planSelectedModel query)
    ((planTokenEstimate query : Nat) : ℚ)

/-- The payload `_execute_plan` assembles for the query. -/
def queryPayload (query : String) : Payload :=
  ⟨planPrompt query, 1/2, min OPENAI_MAX_TOKENS 1000, none, none⟩

/-- Evaluation of `_execute_plan` when the token-window gate denies:
the TOKEN_BUDGET_EXCEEDED dictionary is returned, the router is not
invoked, and only the limiter state has moved. -/
theorem executePlan_token_denied
    (st : OrchState) (now : ℚ) (providers : List ProviderCfg)
    (query : String) (tenant gk : Option String)
    (hA : (TokenBudgetLimiter.allow st.limiter now (tenant.getD "default")
        (planTokenEstimate query) MAX_TOKENS_PER_MIN).1 = false) :
    executePlan st now providers (create_execution_plan query) tenant gk
      = .ok (⟨some "Token budget exceeded. Please retry later.", some 0,
              none, none, none, some "TOKEN_BUDGET_EXCEEDED"⟩,
             ⟨(TokenBudgetLimiter.allow st.limiter now (tenant.getD "default")
                 (planTokenEstimate query) MAX_TOKENS_PER_MIN).2,
              st.daily_budgets, st.usage_cache⟩,
             false) := by
  simp only [planTokenEstimate, planPrompt] at hA
  simp [create_execution_plan, executePlan, hA, planTokenEstimate, planPrompt]

/-- Evaluation of `_execute_plan` when the token gate admits but the
cost budget gate denies: the COST_BUDGET_EXCEEDED dictionary is
returned and the router is not invoked. -/
theorem executePlan_budget_denied
    (st : OrchState) (now : ℚ) (providers : List ProviderCfg)
    (query : String) (tenant gk : Option String)
    (hA : (TokenBudgetLimiter.allow st.limiter now (tenant.getD "default")
        (planTokenEstimate query) MAX_TOKENS_PER_MIN).1 = true)
    (hB : check_budget
        ⟨(TokenBudgetLimiter.allow st.limiter now (tenant.getD "default")
            (planTokenEstimate query) MAX_TOKENS_PER_MIN).2,
         st.daily_budgets, st.usage_cache⟩
        (tenant.getD "default") (planEstimatedCost query) = false) :
    executePlan st now providers (create_execution_plan query) tenant gk
      = .ok (⟨some "Cost budget exceeded. Please retry later.", some 0,
              none, none, none, some "COST_BUDGET_EXCEEDED"⟩,
             ⟨(TokenBudgetLimiter.allow st.limiter now (tenant.getD "default")
                 (planTokenEstimate query) MAX_TOKENS_PER_MIN).2,
              st.daily_budgets, st.usage_cache⟩,
             false) := by
  simp only [planTokenEstimate, planPrompt] at hA
  simp only [planEstimatedCost, planSelectedModel, planTokenEstimate, planPrompt] at hB
  push_cast at hB
  simp [create_execution_plan, executePlan, hA, hB, planTokenEstimate, planPrompt,
    planEstimatedCost, planSelectedModel]

/-- Evaluation of `_execute_plan` when both gates admit: the router is
invoked, `update_usage` is called unconditionally with the router's
returned cost when present and with the orchestrator's own estimate
otherwise, and the plan result carries no error key even when the
router envelope did. -/
theorem executePlan_router_path
    (st : OrchState) (now : ℚ) (providers : List ProviderCfg)
    (query : String) (tenant gk : Option String)
    (hA : (TokenBudgetLimiter.allow st.limiter now (tenant.getD "default")
        (planTokenEstimate query) MAX_TOKENS_PER_MIN).1 = true)
    (hB : check_budget
        ⟨(TokenBudgetLimiter.allow st.limiter now (tenant.getD "default")
            (planTokenEstimate query) MAX_TOKENS_PER_MIN).2,
         st.daily_budgets, st.usage_cache⟩
        (tenant.getD "default") (planEstimatedCost query) = true) :
    executePlan st now providers (create_execution_plan query) tenant gk
      = .ok (⟨(route_request providers (queryPayload query) gk).1.response,
              (route_request providers (queryPayload query) gk).1.confidence,
              (route_request providers (queryPayload query) gk).1.model,
              (route_request providers (queryPayload query) gk).1.tokens_used,
              some 100, none⟩,
             update_usage
               ⟨(TokenBudgetLimiter.allow st.limiter now (tenant.getD "default")
                   (planTokenEstimate query) MAX_TOKENS_PER_MIN).2,
                st.daily_budgets, st.usage_cache⟩
               (tenant.getD "default")
               ((route_request providers (queryPayload query) gk).1.estimated_cost.getD
                 (planEstimatedCost query)),
             true) := by
  simp only [planTokenEstimate, planPrompt] at hA
  simp only [planEstimatedCost, planSelectedModel, planTokenEstimate, planPrompt] at hB
  push_cast at hB
  simp [create_execution_plan, executePlan, hA, hB, queryPayload, planPrompt,
    planEstimatedCost, planSelectedModel, planTokenEstimate]

/-- Shape of the `execute_query` envelope when `_execute_plan`
returns: answer, confidence (default 0.8), steps and metadata are
copied from the plan result, and no error key is set. -/
theorem executeQuery_of_executePlan_ok
    (st : OrchState) (now : ℚ) (providers : List ProviderCfg)
    (query : String) (tenant gk : Option String)
    (r : PlanResult × OrchState × Bool)
    (h : executePlan st now providers (create_execution_plan query) tenant gk = .ok r) :
    executeQuery st now providers query tenant gk
      = ({ answer := r.1.answer
           confidence := r.1.confidence.getD (8/10)
           steps := create_execution_plan query
           metadata := some ⟨r.1.model, r.1.tokens_used, r.1.execution_time_ms⟩
           error := none }, r.2.1) := by
  unfold executeQuery
  rw [h]

/-- C1 (amended): a query stopped at the token-window gate, the cost
budget gate, or by router exhaustion yields an `execute_query`
envelope with confidence 0 — but no machine-readable error code:
`execute_query` rebuilds its envelope from answer, confidence, steps
and metadata only, leaving `error` unset.  The codes live one level
down: `_execute_plan` returns TOKEN_BUDGET_EXCEEDED and
COST_BUDGET_EXCEEDED dictionaries without invoking the router, and
the router envelope carries LLM_ROUTING_FAILED, which `_execute_plan`
already drops when reshaping the result. -/
theorem executeQuery_gates_confidence_zero_no_error_code
    (st : OrchState) (now : ℚ) (providers : List ProviderCfg)
    (query : String) (tenant gk : Option String) :
    ((TokenBudgetLimiter.allow st.limiter now (tenant.getD "default")
        (planTokenEstimate query) MAX_TOKENS_PER_MIN).1 = false →
      (executeQuery st now providers query tenant gk).1.confidence = 0
      ∧ (executeQuery st now providers query tenant gk).1.error = none
      ∧ ∃ r, executePlan st now providers (create_execution_plan query) tenant gk
          = .ok r ∧ r.1.error = some "TOKEN_BUDGET_EXCEEDED" ∧ r.2.2 = false)
    ∧ ((TokenBudgetLimiter.allow st.limiter now (tenant.getD "default")
          (planTokenEstimate query) MAX_TOKENS_PER_MIN).1 = true →
        check_budget
          ⟨(TokenBudgetLimiter.allow st.limiter now (tenant.getD "default")
              (planTokenEstimate query) MAX_TOKENS_PER_MIN).2,
           st.daily_budgets, st.usage_cache⟩
          (tenant.getD "default") (planEstimatedCost query) = false →
      (executeQuery st now providers query tenant gk).1.confidence = 0
      ∧ (executeQuery st now providers query tenant gk).1.error = none
      ∧ ∃ r, executePlan st now providers (create_execution_plan query) tenant gk
          = .ok r ∧ r.1.error = some "COST_BUDGET_EXCEEDED" ∧ r.2.2 = false)
    ∧ ((TokenBudgetLimiter.allow st.limiter now (tenant.getD "default")
          (planTokenEstimate query) MAX_TOKENS_PER_MIN).1 = true →
        check_budget
          ⟨(TokenBudgetLimiter.allow st.limiter now (tenant.getD "default")
              (planTokenEstimate query) MAX_TOKENS_PER_MIN).2,
           st.daily_budgets, st.usage_cache⟩
          (tenant.getD "default") (planEstimatedCost query) = true →
        (∀ p ∈ providers, p.attempts ≠ [] ∧ skippedOrFailing (planPrompt query) p) →
      (executeQuery st now providers query tenant gk).1.confidence = 0
      ∧ (executeQuery st now providers query tenant gk).1.error = none
      ∧ ∃ r, executePlan st now providers (create_execution_plan query) tenant gk
          = .ok r ∧ r.1.error = none
          ∧ r.1.answer = some "LLM routing failed. Please retry later.") := by
  refine ⟨?_, ?_, ?_⟩
  · intro hA
    have heq := executePlan_token_denied st now providers query tenant gk hA
    have henv := executeQuery_of_executePlan_ok st now providers query tenant gk _ heq
    exact ⟨by rw [henv]; rfl, by rw [henv], _, heq, rfl, rfl⟩
  · intro hA hB
    have heq := executePlan_budget_denied st now providers query tenant gk hA hB
    have henv := executeQuery_of_executePlan_ok st now providers query tenant gk _ heq
    exact ⟨by rw [henv]; rfl, by rw [henv], _, heq, rfl, rfl⟩
  · intro hA hB hR
    have heq := executePlan_router_path st now providers query tenant gk hA hB
    have hroute : (route_request providers (queryPayload query) gk).1
        = LLM_ROUTING_FAILED_response :=
      routeLoop_all_skipped_or_failing (planPrompt query) providers hR
    rw [hroute] at heq
    have henv := executeQuery_of_executePlan_ok st now providers query tenant gk _ heq
    exact ⟨by rw [henv]; rfl, by rw [henv], _, heq, rfl, rfl⟩

/-- A state whose tenant "t" has already consumed the full
`MAX_TOKENS_PER_MIN` token window (100 percent of the limit, window
still open at time 0), with fresh cost budget. -/
def tokenExhaustedState : OrchState :=
  ⟨⟨60, fun t => if t = "t" then some ⟨0, 50000⟩ else none⟩,
   fun _ => none, fun _ => none⟩

theorem tokenExhaustedState_gate_denies :
    (TokenBudgetLimiter.allow tokenExhaustedState.limiter 0 ((some "t").getD "default")
      (planTokenEstimate "q") MAX_TOKENS_PER_MIN).1 = false := by
  have hk : 0 < planTokenEstimate "q" := by decide
  have h := TokenBudgetLimiter.allow_in_window_eval tokenExhaustedState.limiter 0 "t"
    (planTokenEstimate "q") MAX_TOKENS_PER_MIN 0 50000 (by simp [tokenExhaustedState])
    (by show (0 : ℚ) - 0 < 60; norm_num)
  rw [show ((some "t").getD "default") = "t" from rfl, h.1, decide_eq_false_iff_not,
    MAX_TOKENS_PER_MIN]
  omega

/-- C1 counterexample: a tenant at 100 percent of its token window
limit submits a query.  The envelope `execute_query` returns is the
token-denial envelope with confidence 0 — and its error field is
absent (`none`), not the TOKEN_BUDGET_EXCEEDED code the claim
promises. -/
theorem executeQuery_token_gate_no_error_code_counterexample :
    (executeQuery tokenExhaustedState 0 (mkPriority [] []) "q" (some "t") none).1.answer
      = some "Token budget exceeded. Please retry later."
    ∧ (executeQuery tokenExhaustedState 0 (mkPriority [] []) "q" (some "t") none).1.confidence = 0
    ∧ (executeQuery tokenExhaustedState 0 (mkPriority [] []) "q" (some "t") none).1.error
      = none := by
  have heq := executePlan_token_denied tokenExhaustedState 0 (mkPriority [] []) "q"
    (some "t") none tokenExhaustedState_gate_denies
  have henv := executeQuery_of_executePlan_ok tokenExhaustedState 0 (mkPriority [] []) "q"
    (some "t") none _ heq
  exact ⟨by rw [henv], by rw [henv]; rfl, by rw [henv]⟩

/-- Witness for C1 (amended) at the same concrete input, through the
amended theorem. -/
theorem executeQuery_gates_confidence_zero_no_error_code_witness :
    (executeQuery tokenExhaustedState 0 (mkPriority [] []) "q" (some "t") none).1.confidence = 0
    ∧ (executeQuery tokenExhaustedState 0 (mkPriority [] []) "q" (some "t") none).1.error
      = none := by
  have h := (executeQuery_gates_confidence_zero_no_error_code tokenExhaustedState 0
    (mkPriority [] []) "q" (some "t") none).1 tokenExhaustedState_gate_denies
  exact ⟨h.1, h.2.1⟩

/-- C4 (amended): `update_usage` is invoked after every Router return,
not only on success.  On a successful route the tenant's recorded
usage grows by the cost the router annotated on the envelope; on a
terminal routing-failure envelope (which carries no `estimated_cost`
key) the usage still grows, by the orchestrator's own estimate, rather
than staying unchanged. -/
theorem update_usage_usage_at (st : OrchState) (tid : String) (cost : ℚ) :
    ((update_usage st tid cost).usage_cache tid).getD 0
      = (st.usage_cache tid).getD 0 + cost := by
  simp [update_usage]

theorem executeQuery_usage_after_router_ok
    (st : OrchState) (now : ℚ) (providers : List ProviderCfg)
    (query : String) (tenant gk : Option String)
    (hA : (TokenBudgetLimiter.allow st.limiter now (tenant.getD "default")
        (planTokenEstimate query) MAX_TOKENS_PER_MIN).1 = true)
    (hB : check_budget
        ⟨(TokenBudgetLimiter.allow st.limiter now (tenant.getD "default")
            (planTokenEstimate query) MAX_TOKENS_PER_MIN).2,
         st.daily_budgets, st.usage_cache⟩
        (tenant.getD "default") (planEstimatedCost query) = true)
    (c : ℚ)
    (hc : (route_request providers (queryPayload query) gk).1.estimated_cost = some c) :
    ((executeQuery st now providers query tenant gk).2.usage_cache
        (tenant.getD "default")).getD 0
      = (st.usage_cache (tenant.getD "default")).getD 0 + c := by
  have heq := executePlan_router_path st now providers query tenant gk hA hB
  have henv := executeQuery_of_executePlan_ok st now providers query tenant gk _ heq
  rw [henv]
  show ((update_usage _ (tenant.getD "default")
      ((route_request providers (queryPayload query) gk).1.estimated_cost.getD
        (planEstimatedCost query))).usage_cache (tenant.getD "default")).getD 0 = _
  rw [update_usage_usage_at, hc]
  rfl

theorem executeQuery_usage_after_router_failure
    (st : OrchState) (now : ℚ) (providers : List ProviderCfg)
    (query : String) (tenant gk : Option String)
    (hA : (TokenBudgetLimiter.allow st.limiter now (tenant.getD "default")
        (planTokenEstimate query) MAX_TOKENS_PER_MIN).1 = true)
    (hB : check_budget
        ⟨(TokenBudgetLimiter.allow st.limiter now (tenant.getD "default")
            (planTokenEstimate query) MAX_TOKENS_PER_MIN).2,
         st.daily_budgets, st.usage_cache⟩
        (tenant.getD "default") (planEstimatedCost query) = true)
    (hc : (route_request providers (queryPayload query) gk).1.estimated_cost = none) :
    ((executeQuery st now providers query tenant gk).2.usage_cache
        (tenant.getD "default")).getD 0
      = (st.usage_cache (tenant.getD "default")).getD 0 + planEstimatedCost query := by
  have heq := executePlan_router_path st now providers query tenant gk hA hB
  have henv := executeQuery_of_executePlan_ok st now providers query tenant gk _ heq
  rw [henv]
  show ((update_usage _ (tenant.getD "default")
      ((route_request providers (queryPayload query) gk).1.estimated_cost.getD
        (planEstimatedCost query))).usage_cache (tenant.getD "default")).getD 0 = _
  rw [update_usage_usage_at, hc, Option.getD_none]

theorem update_usage_after_every_router_return
    (st : OrchState) (now : ℚ) (providers : List ProviderCfg)
    (query : String) (tenant gk : Option String)
    (hA : (TokenBudgetLimiter.allow st.limiter now (tenant.getD "default")
        (planTokenEstimate query) MAX_TOKENS_PER_MIN).1 = true)
    (hB : check_budget
        ⟨(TokenBudgetLimiter.allow st.limiter now (tenant.getD "default")
            (planTokenEstimate query) MAX_TOKENS_PER_MIN).2,
         st.daily_budgets, st.usage_cache⟩
        (tenant.getD "default") (planEstimatedCost query) = true) :
    (∀ c : ℚ, (route_request providers (queryPayload query) gk).1.estimated_cost = some c →
      ((executeQuery st now providers query tenant gk).2.usage_cache
          (tenant.getD "default")).getD 0
        = (st.usage_cache (tenant.getD "default")).getD 0 + c)
    ∧ ((route_request providers (queryPayload query) gk).1.estimated_cost = none →
      ((executeQuery st now providers query tenant gk).2.usage_cache
          (tenant.getD "default")).getD 0
        = (st.usage_cache (tenant.getD "default")).getD 0 + planEstimatedCost query) := by
  exact ⟨fun c hc => executeQuery_usage_after_router_ok st now providers query tenant gk
      hA hB c hc,
    fun hc => executeQuery_usage_after_router_failure st now providers query tenant gk
      hA hB hc⟩

/-! Concrete evaluation facts for the end-to-end counterexamples. -/

theorem planTokenEstimate_q : planTokenEstimate "q" = 1005 := rfl

theorem planSelectedModel_eval (query : String) :
    planSelectedModel query = "gemini-pro" := by
  have h : estimate_cost (planPrompt query) "gemini-pro" 1000 ≤ 5/100 := by
    have hv : estimate_cost (planPrompt query) "gemini-pro" 1000 = 35/100000 := by
      simp [estimate_cost, lookup_costs, TOKEN_COSTS, List.find?]
      norm_num [round6, round_eq]
    rw [hv]
    norm_num
  simp [planSelectedModel, select_optimal_model, quality_tiers, select_from_candidates, h]

theorem planEstimatedCost_q : planEstimatedCost "q" = 352/1000000 := by
  rw [planEstimatedCost, planSelectedModel_eval,
    show ((planTokenEstimate "q" : Nat) : ℚ) = 1005 by rw [planTokenEstimate_q]; norm_num]
  simp [estimate_cost, lookup_costs, TOKEN_COSTS, List.find?]
  norm_num [round6, round_eq]

/-- A fresh state: no tenant has any window or usage history. -/
def freshBudgetState : OrchState :=
  ⟨LimiterState.init, fun _ => none, fun _ => none⟩

/-- The static provider pair with every upstream attempt raising. -/
def failProviders : List ProviderCfg :=
  mkPriority [Except.error (), Except.error (), Except.error ()]
    [Except.error (), Except.error (), Except.error ()]

theorem freshBudgetState_token_gate_allows :
    (TokenBudgetLimiter.allow freshBudgetState.limiter 0 ((some "t").getD "default")
      (planTokenEstimate "q") MAX_TOKENS_PER_MIN).1 = true := by
  have h := TokenBudgetLimiter.allow_empty_eval freshBudgetState.limiter 0 "t"
    (planTokenEstimate "q") MAX_TOKENS_PER_MIN rfl
  rw [show ((some "t").getD "default") = "t" from rfl, h.1, planTokenEstimate_q]
  decide

theorem freshBudgetState_cost_gate_allows :
    check_budget
      ⟨(TokenBudgetLimiter.allow freshBudgetState.limiter 0 ((some "t").getD "default")
          (planTokenEstimate "q") MAX_TOKENS_PER_MIN).2,
       freshBudgetState.daily_budgets, freshBudgetState.usage_cache⟩
      ((some "t").getD "default") (planEstimatedCost "q") = true := by
  rw [check_budget]
  simp only [freshBudgetState, planEstimatedCost_q]
  norm_num

theorem failProviders_route_failure :
    (route_request failProviders (queryPayload "q") none).1
      = LLM_ROUTING_FAILED_response :=
  routeLoop_all_skipped_or_failing (planPrompt "q") failProviders
    (by
      intro p hp
      fin_cases hp <;>
        exact ⟨by simp, Or.inr (by intro a ha; fin_cases ha <;> rfl)⟩)

/-- C4 counterexample: a tenant with fresh budget sends a query and
every provider fails all retries, so the router returns the terminal
`LLM_ROUTING_FAILED` envelope; the tenant's recorded usage still
increases from 0 to the orchestrator's estimate 0.000352 — it does not
stay unchanged as the claim requires. -/
theorem update_usage_on_routing_failure_counterexample :
    (route_request failProviders (queryPayload "q") none).1.error
      = some "LLM_ROUTING_FAILED"
    ∧ (freshBudgetState.usage_cache "t").getD 0 = 0
    ∧ ((executeQuery freshBudgetState 0 failProviders "q" (some "t") none).2.usage_cache
        "t").getD 0 = 352/1000000
    ∧ (352/1000000 : ℚ) ≠ 0 := by
  refine ⟨by rw [failProviders_route_failure]; rfl, rfl, ?_, by norm_num⟩
  have h := executeQuery_usage_after_router_failure freshBudgetState 0 failProviders "q"
    (some "t") none freshBudgetState_token_gate_allows freshBudgetState_cost_gate_allows
    (by rw [failProviders_route_failure]; rfl)
  rw [planEstimatedCost_q] at h
  have h2 : (freshBudgetState.usage_cache ((some "t").getD "default")).getD 0
      + (352/1000000 : ℚ) = 352/1000000 := by
    show (0:ℚ) + 352/1000000 = 352/1000000
    norm_num
  exact h.trans h2

/-- Witness for C4 (amended), at the same concrete input, through the
amended theorem: on routing failure the tenant's usage grows by the
orchestrator's own estimate. -/
theorem update_usage_after_every_router_return_witness :
    ((executeQuery freshBudgetState 0 failProviders "q" (some "t") none).2.usage_cache
        ((some "t").getD "default")).getD 0
      = (freshBudgetState.usage_cache ((some "t").getD "default")).getD 0
        + planEstimatedCost "q" := by
  have h := update_usage_after_every_router_return freshBudgetState 0 failProviders "q"
    (some "t") none freshBudgetState_token_gate_allows freshBudgetState_cost_gate_allows
  exact h.2 (by rw [failProviders_route_failure]; rfl)

end GreedyAnalytics
